import Mathlib

/-!
Verification of the telegram-bot webhook backend (backend/app/main.py).

The development shallowly embeds the pure logic of the backend:
the MarkdownV2 escaper, the command parser, the outbound sender
(with the network modelled as an oracle assigning an outcome to each
call), and the webhook dispatcher (reply selection and scheduling).
-/

namespace TelegramBot

/-- Python string truthiness for an optional string: `None` and `""` are falsy. -/
def pyTruthyOptStr : Option String → Bool
  | none => false
  | some s => s ≠ ""

/-- Python truthiness for an optional integer: `None` and `0` are falsy
(the dispatcher's `if not chat_id:` check). -/
def pyTruthyOptInt : Option Int → Bool
  | none => false
  | some n => n != 0

/-- Python `a or b` on an optional string with a string default:
yields `a`'s value when it is truthy (present and non-empty), else `b`. -/
def pyStrOr (a : Option String) (b : String) : String :=
  match a with
  | some s => if s = "" then b else s
  | none => b

/-- The whitespace set stripped by Python `str.strip()` (ASCII range). -/
def pyIsSpace (c : Char) : Bool :=
  c = ' ' || c = '\t' || c = '\n' || c = '\x0d' || c = '\x0b' || c = '\x0c'

/-- Python `str.strip()`: remove leading and trailing whitespace. -/
def pyStrip (s : String) : String :=
  ⟨((s.data.dropWhile pyIsSpace).reverse.dropWhile pyIsSpace).reverse⟩

/-- Python `str.lower()` restricted to ASCII letters (the only case-bearing
characters the backend's command tokens can contain). -/
def pyLowerChar (c : Char) : Char :=
  if 'A' ≤ c && c ≤ 'Z' then Char.ofNat (c.toNat + 32) else c

/-- Python `str.lower()` on a string, ASCII letters. -/
def pyLower (s : String) : String :=
  ⟨s.data.map pyLowerChar⟩

/-- Python `s.split(sep, 1)` for a one-character separator, on lists:
the part before the first occurrence of the separator, and, when the
separator occurs, the part after it. -/
def splitOnceList (c : Char) : List Char → List Char × Option (List Char)
  | [] => ([], none)
  | x :: xs =>
    if x = c then ([], some xs)
    else
      let p := splitOnceList c xs
      (x :: p.1, p.2)

/-- Python `s.split(sep, 1)` for a one-character separator, on strings. -/
def splitOnce (c : Char) (s : String) : String × Option String :=
  let p := splitOnceList c s.data
  (⟨p.1⟩, p.2.map (fun l => ⟨l⟩))

/-- Python `text.startswith("/")`: the first character is `'/'`. -/
def startsWithSlash (t : String) : Bool :=
  t.data.head? = some '/'

/-- The MarkdownV2 reserved characters escaped by `escape_markdown_v2`
(the character class of its regular expression). -/
def reservedChars : List Char :=
  ['_', '*', '[', ']', '(', ')', '~', Char.ofNat 96, '>', '#', '+', '-', '=',
   '|', '{', '}', '.', '!']

/-- Image of one character under the substitution `re.sub(r'([...])', r'\\\1', text)`:
a reserved character gains a preceding backslash, any other character passes through. -/
def escChar (c : Char) : List Char :=
  if reservedChars.contains c then ['\\', c] else [c]

/-- `escape_markdown_v2` from main.py: escape each MarkdownV2 reserved
character by prepending a backslash (string input case; the non-string
defensive branch is outside the string domain of this embedding). -/
def escape_markdown_v2 (s : String) : String :=
  ⟨(s.data.map escChar).flatten⟩

/-- `parse_command` from main.py.  The argument is optional because the
dispatcher can pass `None` (callback data absent); `if not text` covers
both `None` and the empty string. -/
def parse_command (text : Option String) : Option String × String :=
  match text with
  | none => (none, "")
  | some t0 =>
    if t0 = "" then (none, "")
    else
      let t := pyStrip t0
      if !startsWithSlash t then (none, t)
      else
        let parts := splitOnce ' ' t
        let cmd := pyLower parts.1
        match parts.2 with
        | some rest => (some cmd, pyStrip rest)
        | none => (some cmd, "")

/-- Outcome of one outbound HTTP POST: either a response with a status code
and a decoded JSON body, or a transport-level exception (timeout, connection
failure, or a body on which `.json()` fails). -/
inductive TransportResult where
  | resp (status : Nat) (body : String)
  | exn
  deriving Repr, DecidableEq

/-- JSON body of one `sendMessage` POST: `{"chat_id": ..., "text": ...}`
plus an optional `"parse_mode"` field. -/
structure Payload where
  chat_id : Int
  text : String
  parse_mode : Option String
  deriving Repr, DecidableEq

/-- `send_message_async` from main.py.  The network is an oracle giving the
outcome of the n-th POST issued; the value is the list of payloads actually
posted together with the returned result (`none` when the code returns
`None`).  Exceptions are caught by the function's `try`, so the embedding is
total: nothing propagates. -/
def send_message_async (chat_id : Int) (text : String) (parse_mode : String)
    (transport : Nat → TransportResult) : List Payload × Option String :=
  let payload_text := if parse_mode = "MarkdownV2" then escape_markdown_v2 text else text
  let payload : Payload :=
    ⟨chat_id, payload_text, if parse_mode = "" then none else some parse_mode⟩
  match transport 0 with
  | .exn => ([payload], none)
  | .resp status body =>
    if status = 400 && parse_mode ≠ "" then
      let fallback : Payload := ⟨chat_id, text, none⟩
      match transport 1 with
      | .exn => ([payload, fallback], none)
      | .resp _ body2 => ([payload, fallback], some body2)
    else ([payload], some body)

/-- The dict found under `"message"` or `"edited_message"`:
the fields of it that the dispatcher reads.  `chat_id` is
`msg.get("chat", {}).get("id")`. -/
structure Msg where
  chat_id : Option Int
  text : Option String
  caption : Option String
  deriving Repr, DecidableEq

/-- The dict found under `"callback_query"`: `chat_id` is
`cq.get("message", {}).get("chat", {}).get("id")`, `data` is the value of
its `"data"` key when present. -/
structure CallbackQuery where
  chat_id : Option Int
  data : Option String
  deriving Repr, DecidableEq

/-- An inbound update JSON object: which of the three recognised top-level
keys are present and what they hold. -/
structure Update where
  message : Option Msg
  edited_message : Option Msg
  callback_query : Option CallbackQuery
  deriving Repr, DecidableEq

/-- The classification block of `receive_webhook` (main.py lines 96-115):
resolve `chat_id` and `text` from the update, inspecting `message`,
`edited_message`, `callback_query` in that order.  `text` stays `none`
when no variant is present. -/
def extract_chat_text (u : Update) : Option Int × Option String :=
  match u.message with
  | some msg => (msg.chat_id, some (pyStrOr msg.text (pyStrOr msg.caption "")))
  | none =>
    match u.edited_message with
    | some msg => (msg.chat_id, some (pyStrOr msg.text ""))
    | none =>
      match u.callback_query with
      | some cq => (cq.chat_id, some (cq.data.getD ""))
      | none => (none, none)

/-- Reply text of `/start`. -/
def start_text : String :=
  "Hello! I'm alive and running. ðŸ¤–\n\nAvailable commands:\n/help - show help\n/info - bot info\n/echo <text> - echo back text\n/setlang <zh|en> - set language\n/about - about this bot\n\nIf you are an admin, use:\n/broadcast <admin_key>|<message>  (admin only)"

/-- Reply text of `/help`. -/
def help_text : String :=
  "*Help*\n/start - start the bot\n/help - this message\n/info - info about bot\n/echo <text> - bot will repeat your text\n/setlang <zh|en> - set preferred language\n/about - about this bot\n"

/-- Reply text of `/info`. -/
def info_text : String :=
  "This bot is deployed on Render. It supports basic commands and admin broadcast."

/-- Reply text of `/about`. -/
def about_text : String :=
  "Telegram group management bot â€” basic demo. Extend me with features you need."

/-- Reply text of `/setlang` with a Chinese alias. -/
def setlang_zh_text : String :=
  "è¯­è¨€å·²è®¾ç½®ä¸ºä¸­æ–‡ (zh)."

/-- Prefix of the fallback echo reply (the f-string on main.py line 192). -/
def fallback_prefix : String :=
  "å·²æ”¶åˆ°: "

/-- The `/setlang` branch of `receive_webhook`. -/
def setlang_reply (args : String) : String :=
  if pyLower args = "zh" || pyLower args = "cn" || pyLower args = "zh-cn" then
    setlang_zh_text
  else if pyLower args = "en" || pyLower args = "en-us" then
    "Language set to English (en)."
  else "Usage: /setlang <zh|en>"

/-- The `/broadcast` branch of `receive_webhook` (main.py lines 174-187). -/
def broadcast_reply (admin_key args : String) : String :=
  if !(args.data.contains '|') then "Usage: /broadcast <admin_key>|<message>"
  else
    let parts := splitOnce '|' args
    let provided_key := pyStrip parts.1
    let bmsg := pyStrip (parts.2.getD "")
    if provided_key ≠ "" && provided_key = admin_key then
      "Broadcast accepted. (Demo mode) Would send: " ++ bmsg
    else "Invalid admin key. Access denied."

/-- The reply-selection if/elif chain of `receive_webhook`
(main.py lines 124-192): the chosen `reply_text`, `none` when it stays
`None`. -/
def select_reply (admin_key : String) (cmd : Option String) (args : String)
    (text : Option String) : Option String :=
  if cmd = some "/start" then some start_text
  else if cmd = some "/help" then some help_text
  else if cmd = some "/info" then some info_text
  else if cmd = some "/echo" then
    some (if args ≠ "" then args else "Usage: /echo <text>")
  else if cmd = some "/setlang" then some (setlang_reply args)
  else if cmd = some "/about" then some about_text
  else if cmd = some "/broadcast" then some (broadcast_reply admin_key args)
  else if !pyTruthyOptStr cmd then
    some (if pyTruthyOptStr text then fallback_prefix ++ (text.getD "") else "Message received.")
  else none

/-- HTTP response of the webhook endpoint: an `HTTPException` with a status
and detail, or the success JSON `\x7b"ok": true\x7d` with an optional
`"info"` field. -/
inductive WebhookResponse where
  | httpError (status : Nat) (detail : String)
  | ok (info : Option String)
  deriving Repr, DecidableEq

/-- A background send scheduled by the dispatcher: the chat id and reply
text handed to `send_message_async` (the token is the same configured one). -/
structure Send where
  chat_id : Int
  text : String
  deriving Repr, DecidableEq

/-- `receive_webhook` from main.py.  `token` and `admin_key` are the values
of the two environment variables (empty string when unset, as `os.getenv`
defaults them); `body` is `none` when the request body is not valid JSON.
Returns the HTTP response together with the list of background sends
scheduled. -/
def receive_webhook (token admin_key : String) (body : Option Update) :
    WebhookResponse × List Send :=
  if token = "" then (.httpError 500 "Bot token not configured", [])
  else
    match body with
    | none => (.httpError 400 "Invalid JSON", [])
    | some update =>
      let ct := extract_chat_text update
      if !pyTruthyOptInt ct.1 then (.ok (some "no chat_id"), [])
      else
        let ca := parse_command ct.2
        match select_reply admin_key ca.1 ca.2 ct.2 with
        | some reply =>
          (.ok none, if reply ≠ "" then [⟨ct.1.getD 0, reply⟩] else [])
        | none => (.ok none, [])

/-! ### Helper lemmas -/

/-- `splitOnceList` takes the longest separator-free head, and the tail after
the first separator occurrence when there is one. -/
theorem splitOnceList_characterization (c : Char) (l : List Char) :
    splitOnceList c l =
      (l.takeWhile (fun a => a != c),
       if l.contains c then some ((l.dropWhile (fun a => a != c)).tail) else none) := by
  induction l with
  | nil => simp [splitOnceList]
  | cons x xs ih =>
    by_cases hx : x = c
    · subst hx
      simp [splitOnceList]
    · simp [splitOnceList, ih, List.takeWhile_cons, List.dropWhile_cons, hx, Ne.symm hx]

/-- Splitting once at a separator recovers the two halves when the first half
is separator-free. -/
theorem splitOnceList_of_append (c : Char) (k m : List Char) (h : c ∉ k) :
    splitOnceList c (k ++ c :: m) = (k, some m) := by
  induction k with
  | nil => simp [splitOnceList]
  | cons x xs ih =>
    rw [List.mem_cons, not_or] at h
    have hx : x ≠ c := fun e => h.1 e.symm
    rw [List.cons_append]
    simp [splitOnceList, hx, ih h.2]

/-- `escChar` written with propositional membership. -/
theorem escChar_eq_ite (c : Char) :
    escChar c = if c ∈ reservedChars then ['\\', c] else [c] := by
  by_cases h : c ∈ reservedChars <;> simp [escChar, h]

/-- Flattening the per-character images of a reserved-free list is the
identity. -/
theorem flatten_map_escChar (l : List Char) (h : ∀ c ∈ l, c ∉ reservedChars) :
    (l.map escChar).flatten = l := by
  induction l with
  | nil => simp
  | cons x xs ih =>
    have hx := h x (List.mem_cons_self x xs)
    rw [List.map_cons, List.flatten_cons, escChar_eq_ite, if_neg hx,
      ih (fun c hc => h c (List.mem_cons_of_mem x hc))]
    rfl

/-! ### Claim theorems -/

/-- C4: `escape_markdown_v2` prepends a backslash to each occurrence of a
character of the reserved set `_ * [ ] ( ) ~ \x60 > # + - = | \x7b \x7d . !`
and leaves every other character unchanged; consequently it is the identity
on strings with no reserved character, and sends each reserved character `c`
to the two-character string backslash-`c`. -/
theorem escape_markdown_spec :
    (∀ s : String, (escape_markdown_v2 s).data
        = (s.data.map (fun c => if c ∈ reservedChars then ['\\', c] else [c])).flatten) ∧
    (∀ s : String, (∀ c ∈ s.data, c ∉ reservedChars) → escape_markdown_v2 s = s) ∧
    (∀ c : Char, c ∈ reservedChars → escape_markdown_v2 ⟨[c]⟩ = ⟨['\\', c]⟩) := by
  refine ⟨?_, ?_, ?_⟩
  · intro s
    show (s.data.map escChar).flatten = _
    rw [List.map_congr_left (fun c _ => escChar_eq_ite c)]
  · intro s h
    exact String.ext (flatten_map_escChar s.data h)
  · intro c h
    apply String.ext
    show (List.map escChar [c]).flatten = ['\\', c]
    rw [List.map_cons, List.map_nil, List.flatten_cons, escChar_eq_ite, if_pos h]
    rfl

/-- Witness for C4 at concrete inputs. -/
theorem escape_markdown_spec_witness :
    escape_markdown_v2 "hello" = "hello" ∧
    escape_markdown_v2 ⟨['.']⟩ = ⟨['\\', '.']⟩ :=
  ⟨escape_markdown_spec.2.1 "hello" (by decide),
   escape_markdown_spec.2.2 '.' (by decide)⟩

/-- C3: `parse_command` maps absent or empty text to `(none, "")`; text whose
trimmed form does not start with `/` to `(none, trimmed text)`; and text whose
trimmed form starts with `/` to the first space-delimited token lower-cased
together with the trimmed remainder after the first space (empty when there is
no space, argument case preserved); in particular
`parse_command "/ECHO x" = (some "/echo", "x")` and
`parse_command "/start" = (some "/start", "")`. -/
theorem parse_command_spec (s : String) :
    parse_command none = (none, "") ∧
    parse_command (some "") = (none, "") ∧
    (s ≠ "" → startsWithSlash (pyStrip s) = false →
      parse_command (some s) = (none, pyStrip s)) ∧
    (s ≠ "" → startsWithSlash (pyStrip s) = true →
      parse_command (some s) =
        (some (pyLower ⟨(pyStrip s).data.takeWhile (fun a => a != ' ')⟩),
         if (pyStrip s).data.contains ' ' then
           pyStrip ⟨((pyStrip s).data.dropWhile (fun a => a != ' ')).tail⟩
         else "")) ∧
    parse_command (some "/ECHO x") = (some "/echo", "x") ∧
    parse_command (some "/start") = (some "/start", "") := by
  refine ⟨rfl, rfl, ?_, ?_, by decide, by decide⟩
  · intro h1 h2
    simp [parse_command, h1, h2]
  · intro h1 h2
    simp [parse_command, h1, h2, splitOnce, splitOnceList_characterization]
    by_cases hm : ' ' ∈ (pyStrip s).data <;> simp [hm]

/-- Witness for C3 at concrete inputs. -/
theorem parse_command_spec_witness :
    parse_command (some "hello world") = (none, pyStrip "hello world") ∧
    parse_command (some "/ECHO x") =
      (some (pyLower ⟨(pyStrip "/ECHO x").data.takeWhile (fun a => a != ' ')⟩),
       if (pyStrip "/ECHO x").data.contains ' ' then
         pyStrip ⟨((pyStrip "/ECHO x").data.dropWhile (fun a => a != ' ')).tail⟩
       else "") :=
  ⟨(parse_command_spec "hello world").2.2.1 (by decide) (by decide),
   (parse_command_spec "/ECHO x").2.2.2.1 (by decide) (by decide)⟩

/-- C1: when markup is requested (`parse_mode = "MarkdownV2"`) and the first
POST comes back with HTTP status 400, the sender issues exactly one further
POST whose body carries the original unescaped text and no `parse_mode`
field, and returns the second response's result; no further calls are made. -/
theorem sender_fallback_on_400 (chat_id : Int) (text b1 b2 : String) (s2 : Nat)
    (transport : Nat → TransportResult)
    (h0 : transport 0 = .resp 400 b1) (h1 : transport 1 = .resp s2 b2) :
    send_message_async chat_id text "MarkdownV2" transport =
      ([⟨chat_id, escape_markdown_v2 text, some "MarkdownV2"⟩,
        ⟨chat_id, text, none⟩], some b2) := by
  simp [send_message_async, h0, h1]

/-- Witness for C1 at a concrete transport. -/
theorem sender_fallback_on_400_witness :
    send_message_async 7 "hi.there" "MarkdownV2"
        (fun n => if n = 0 then .resp 400 "err" else .resp 200 "ok2") =
      ([⟨7, escape_markdown_v2 "hi.there", some "MarkdownV2"⟩,
        ⟨7, "hi.there", none⟩], some "ok2") :=
  sender_fallback_on_400 7 "hi.there" "err" "ok2" 200 _ rfl rfl

/-- C8: a transport-level exception during either POST is caught inside the
sender, which then returns no result (`none`); the embedding of the sender is
a total function, so nothing propagates out of it. -/
theorem sender_swallows_exceptions (chat_id : Int) (text parse_mode : String)
    (transport : Nat → TransportResult) :
    (transport 0 = .exn →
      (send_message_async chat_id text parse_mode transport).2 = none) ∧
    (∀ b1 : String, transport 0 = .resp 400 b1 → parse_mode ≠ "" → transport 1 = .exn →
      (send_message_async chat_id text parse_mode transport).2 = none) := by
  constructor
  · intro h0
    simp [send_message_async, h0]
  · intro b1 h0 hpm h1
    simp [send_message_async, h0, h1, hpm]

/-- Witness for C8 at a concrete transport. -/
theorem sender_swallows_exceptions_witness :
    (send_message_async 7 "hi" "MarkdownV2" (fun _ => .exn)).2 = none :=
  (sender_swallows_exceptions 7 "hi" "MarkdownV2" (fun _ => .exn)).1 rfl

/-- C6: with the bot token unset, every webhook request is answered
HTTP 500 with detail "Bot token not configured" and schedules no outbound
send, whatever the body — including an invalid-JSON body (`none`), since
the token check precedes body parsing. -/
theorem missing_token_500 (admin_key : String) (body : Option Update) :
    receive_webhook "" admin_key body =
      (.httpError 500 "Bot token not configured", []) := by
  simp [receive_webhook]

/-- C7: a valid-JSON body carrying none of the three recognised keys — and in
general any update from which no chat id is resolved — is acknowledged with
`ok` and info "no chat_id", and no outbound send is scheduled. -/
theorem no_chat_id_ack (token admin_key : String) (u : Update)
    (htok : token ≠ "") :
    (u.message = none → u.edited_message = none → u.callback_query = none →
      receive_webhook token admin_key (some u) = (.ok (some "no chat_id"), [])) ∧
    ((extract_chat_text u).1 = none →
      receive_webhook token admin_key (some u) = (.ok (some "no chat_id"), [])) := by
  constructor
  · intro h1 h2 h3
    simp [receive_webhook, htok, extract_chat_text, h1, h2, h3, pyTruthyOptInt]
  · intro h
    simp [receive_webhook, htok, h, pyTruthyOptInt]

/-- Witness for C7 at a concrete update. -/
theorem no_chat_id_ack_witness :
    receive_webhook "tok" "secret" (some ⟨none, none, none⟩) =
      (.ok (some "no chat_id"), []) :=
  (no_chat_id_ack "tok" "secret" ⟨none, none, none⟩ (by decide)).1 rfl rfl rfl

/-- C9: an update whose resolved chat identifier is the integer 0 is treated
exactly like an absent chat id: acknowledged with info "no chat_id" and no
outbound send (the dispatcher's `if not chat_id:` test is falsy on 0). -/
theorem chat_id_zero_ack (token admin_key : String) (u : Update)
    (htok : token ≠ "") (h : (extract_chat_text u).1 = some 0) :
    receive_webhook token admin_key (some u) = (.ok (some "no chat_id"), []) := by
  simp [receive_webhook, htok, h, pyTruthyOptInt]

/-- Witness for C9 at a concrete update carrying chat id 0. -/
theorem chat_id_zero_ack_witness :
    receive_webhook "tok" "secret"
        (some ⟨some ⟨some 0, some "/start", none⟩, none, none⟩) =
      (.ok (some "no chat_id"), []) :=
  chat_id_zero_ack "tok" "secret" ⟨some ⟨some 0, some "/start", none⟩, none, none⟩
    (by decide) rfl

/-- C10: a message whose text parses to a command token starting with `/`
that is none of the seven recognised commands selects no reply: the response
is plain `ok` and no outbound send is scheduled (the fallback echo fires only
for non-command text). -/
theorem unknown_command_silent (token admin_key : String) (u : Update)
    (cid : Int) (c args : String)
    (htok : token ≠ "") (hcid : (extract_chat_text u).1 = some cid) (h0 : cid ≠ 0)
    (hparse : parse_command (extract_chat_text u).2 = (some c, args))
    (hslash : startsWithSlash c = true)
    (hnot : c ∉ ["/start", "/help", "/info", "/echo", "/setlang", "/about", "/broadcast"]) :
    receive_webhook token admin_key (some u) = (.ok none, []) := by
  have hc : c ≠ "" := by
    intro e
    subst e
    simp [startsWithSlash] at hslash
  simp only [List.mem_cons, List.not_mem_nil, not_or, or_false] at hnot
  obtain ⟨n1, n2, n3, n4, n5, n6, n7⟩ := hnot
  simp [receive_webhook, htok, hcid, pyTruthyOptInt, h0, hparse, select_reply,
    n1, n2, n3, n4, n5, n6, n7, pyTruthyOptStr, hc]

/-- Witness for C10 at a concrete unrecognized command. -/
theorem unknown_command_silent_witness :
    receive_webhook "tok" "secret"
        (some ⟨some ⟨some 5, some "/nope", none⟩, none, none⟩) =
      (.ok none, []) :=
  unknown_command_silent "tok" "secret"
    ⟨some ⟨some 5, some "/nope", none⟩, none, none⟩ 5 "/nope" ""
    (by decide) rfl (by decide) (by decide) (by decide) (by decide)

/-- Modelled from the spec for comparison (refinement direction of C2): the
text-extraction rule as the claim states it for both `message` and
`edited_message` — the `text` field if present and non-empty, otherwise the
`caption` field if present and non-empty, otherwise the empty string. -/
def claimedText (t c : Option String) : String :=
  match t with
  | some s =>
    if s ≠ "" then s
    else
      match c with
      | some k => if k ≠ "" then k else ""
      | none => ""
  | none =>
    match c with
    | some k => if k ≠ "" then k else ""
    | none => ""

/-- The code's `a or b or ""` chains agree with the claimed rule when the
caption really participates, and with the caption-free rule otherwise. -/
theorem pyStrOr_claimedText (t c : Option String) :
    pyStrOr t (pyStrOr c "") = claimedText t c ∧ pyStrOr t "" = claimedText t none := by
  constructor
  · rcases t with _ | s
    · rcases c with _ | k
      · rfl
      · by_cases hk : k = "" <;> simp [pyStrOr, claimedText, hk]
    · by_cases hs : s = ""
      · rcases c with _ | k
        · simp [pyStrOr, claimedText, hs]
        · by_cases hk : k = "" <;> simp [pyStrOr, claimedText, hs, hk]
      · simp [pyStrOr, claimedText, hs]
  · rcases t with _ | s
    · rfl
    · by_cases hs : s = "" <;> simp [pyStrOr, claimedText, hs]

/-- C2 counterexample: an `edited_message` bearing a caption and no text.
The code extracts the empty string (its `edited_message` branch never reads
the caption), while the claimed rule yields the caption "hi". -/
theorem edited_message_caption_counterexample :
    (extract_chat_text ⟨none, some ⟨some 1, none, some "hi"⟩, none⟩).2 = some "" ∧
    claimedText none (some "hi") = "hi" ∧
    ("" : String) ≠ "hi" := by decide

/-- C2 amended: for a `message` update the extracted text follows the claimed
text-else-caption-else-empty rule, but for an `edited_message` update only the
`text` field is consulted (the caption is ignored, as if absent); in both
cases the chat id is the nested chat identifier. -/
theorem extract_text_amended (m : Msg) :
    (∀ em cq, extract_chat_text ⟨some m, em, cq⟩
        = (m.chat_id, some (claimedText m.text m.caption))) ∧
    (∀ cq, extract_chat_text ⟨none, some m, cq⟩
        = (m.chat_id, some (claimedText m.text none))) := by
  constructor
  · intro em cq
    simp [extract_chat_text, (pyStrOr_claimedText m.text m.caption).1]
  · intro cq
    simp [extract_chat_text, (pyStrOr_claimedText m.text m.caption).2]

/-- C5 counterexample: configured admin key `""` and args `"|hi"`.  The
provided key, after trimming, is `""` and so is exactly equal to the
configured admin key, yet the code replies "Invalid admin key. Access
denied." instead of the acceptance acknowledgment, because its guard also
requires the provided key to be non-empty. -/
theorem broadcast_empty_key_counterexample :
    pyStrip (splitOnce '|' "|hi").1 = "" ∧
    broadcast_reply "" "|hi" = "Invalid admin key. Access denied." ∧
    broadcast_reply "" "|hi" ≠ "Broadcast accepted. (Demo mode) Would send: hi" := by
  decide

/-- C5 amended: `/broadcast` args without a `|` yield the usage message;
otherwise args split at the first `|` into a provided key and a message body,
both trimmed, and the reply is the acceptance acknowledgment carrying the
body exactly when the trimmed provided key is non-empty and equals the
configured admin key — an empty provided key is denied even when it equals
the configured (empty) admin key; mismatches are denied. -/
theorem broadcast_amended (admin_key args : String) (text : Option String) :
    (select_reply admin_key (some "/broadcast") args text
        = some (broadcast_reply admin_key args)) ∧
    (args.data.contains '|' = false →
      broadcast_reply admin_key args = "Usage: /broadcast <admin_key>|<message>") ∧
    (∀ k m : String, args = k ++ "|" ++ m → '|' ∉ k.data →
      broadcast_reply admin_key args =
        if pyStrip k ≠ "" ∧ pyStrip k = admin_key then
          "Broadcast accepted. (Demo mode) Would send: " ++ pyStrip m
        else "Invalid admin key. Access denied.") ∧
    broadcast_reply "secret" "wrongkey|hi" = "Invalid admin key. Access denied." ∧
    broadcast_reply "secret" "secret|hi"
      = "Broadcast accepted. (Demo mode) Would send: hi" := by
  refine ⟨?_, ?_, ?_, by decide, by decide⟩
  · simp [select_reply]
  · intro h
    have h' : '|' ∉ args.data := by simpa using h
    simp [broadcast_reply, h']
  · intro k m hk hmem
    subst hk
    have hdata : (k ++ "|" ++ m).data = k.data ++ '|' :: m.data := by
      simp [String.data_append]
    have hcon : (k ++ "|" ++ m).data.contains '|' = true := by
      rw [hdata]; simp
    have hsplit : splitOnce '|' (k ++ "|" ++ m) = (k, some m) := by
      simp [splitOnce, hdata, splitOnceList_of_append '|' k.data m.data hmem]
    simp only [broadcast_reply, hcon, Bool.not_true, Bool.false_eq_true, if_false, hsplit]
    by_cases hcond : pyStrip k ≠ "" ∧ pyStrip k = admin_key
    · simp [hcond.1, hcond.2, hcond]
    · rw [if_neg hcond]
      rcases not_and_or.mp hcond with h1 | h2
      · simp at h1
        simp [h1]
      · simp [h2]

/-- Witness for C5's amended theorem at the configured key "secret". -/
theorem broadcast_amended_witness :
    broadcast_reply "secret" "secret|hi" =
      (if pyStrip "secret" ≠ "" ∧ pyStrip "secret" = "secret" then
        "Broadcast accepted. (Demo mode) Would send: " ++ pyStrip "hi"
      else "Invalid admin key. Access denied.") :=
  (broadcast_amended "secret" "secret|hi" none).2.2.1 "secret" "hi" rfl (by decide)

end TelegramBot
